import Mathlib

/-!
Verification of the weather-dashboard frontend logic.

The repository contains two browser dashboard variants plus a map-based
weather app:
  * `WeatherOracle` (src/script.js, first class) — location-aware dashboard
    posting to `/api/predict`;
  * `EnvironmentalDashboard` (src/script.js, second class) — date-only
    dashboard posting to `/api/predict`;
  * `WeatherApp` (src/unnamed/part_001) — map app posting to `/predict`.

JavaScript numbers are modelled as rationals (`ℚ`), results of
`Math.round`/`Math.ceil` as `ℤ`, fallible paths as `Except`/`Option`, and
the JSON request bodies as a small JSON value type.  Each definition below
is a direct translation of the corresponding source function.
-/

namespace WeatherFrontend

/-- JavaScript `Math.round`: round half towards positive infinity.
`Rat.floor` is used (rather than `⌊⌋`) to keep the definition executable. -/
def jsRound (q : ℚ) : ℤ := Rat.floor (q + 1 / 2)

/-- JavaScript `Math.ceil` on a rational value. -/
def jsCeil (q : ℚ) : ℤ := Rat.ceil q

/-- JavaScript `x || d` on numbers: `0` is falsy and replaced by the default. -/
def jsOr (q d : ℚ) : ℚ := if q = 0 then d else q

/-- One entry of the `confidence` array the backend returns:
`{variable, confidence}` (the `variable` field is named `varName` here
because `variable` is a Lean keyword). -/
structure ConfidenceEntry where
  varName : String
  confidence : ℚ
deriving DecidableEq, Repr

/-- `WeatherOracle.displayConfidenceIntervals` (src/script.js lines 260-286):
on an empty (or missing) confidence list a "not available" message is shown
and no entries are rendered; otherwise the list is sorted by the comparator
`(a, b) => b.confidence - a.confidence` (descending confidence) and the
first 5 entries are rendered. -/
def WeatherOracle.displayConfidenceIntervals
    (confidence : List ConfidenceEntry) : List ConfidenceEntry :=
  if confidence.isEmpty then []
  else
    (confidence.mergeSort (fun a b => decide (b.confidence ≤ a.confidence))).take 5

/-- `EnvironmentalDashboard.displayConfidenceIntervals` (src/script.js lines
951-977): identical code to the `WeatherOracle` variant. -/
def EnvironmentalDashboard.displayConfidenceIntervals
    (confidence : List ConfidenceEntry) : List ConfidenceEntry :=
  if confidence.isEmpty then []
  else
    (confidence.mergeSort (fun a b => decide (b.confidence ≤ a.confidence))).take 5

/-- A JSON value, as far as the request bodies built by the frontends need:
numbers, strings and objects with ordered fields. -/
inductive Json where
  | num (q : ℚ)
  | str (s : String)
  | obj (fields : List (String × Json))

/-- Field lookup in an ordered JSON field list (first match wins). -/
def lookupPairs : List (String × Json) → String → Option Json
  | [], _ => none
  | (k', v) :: rest, k => if k' = k then some v else lookupPairs rest k

/-- Field lookup on a JSON value; `none` off objects. -/
def lookupField : Json → String → Option Json
  | Json.obj fields, k => lookupPairs fields k
  | Json.num _, _ => none
  | Json.str _, _ => none

/-- The coordinates the map app keeps (`this.currentCoords = { lat, lng }`,
src/unnamed/part_001 line 101). -/
structure Coords where
  lat : ℚ
  lng : ℚ
deriving DecidableEq

/-- The JSON body `WeatherApp.fetchWeatherData` POSTs to `/predict`
(src/unnamed/part_001 lines 360-370): `{date, latitude, longitude}` with the
coordinates as top-level fields; `dateStr` stands for
`selectedDate.toISOString().slice(0, 16)`. -/
def WeatherApp.requestBody (dateStr : String) (lat lng : ℚ) : Json :=
  Json.obj [("date", Json.str dateStr), ("latitude", Json.num lat),
            ("longitude", Json.num lng)]

/-- `Math.ceil((selectedDate - today) / (1000 * 60 * 60 * 24))`
(src/unnamed/part_001 line 325), over millisecond timestamps. -/
def daysFromNow (selectedMs nowMs : ℤ) : ℤ :=
  jsCeil (((selectedMs - nowMs : ℤ) : ℚ) / (1000 * 60 * 60 * 24))

/-- Outcome of the map app's predict action: an error surfaced to the user
before any network traffic, or a fetch with the given JSON body. -/
inductive PredictOutcome where
  | error (msg : String)
  | fetch (body : Json)

/-- `WeatherApp.predictWeather` (src/unnamed/part_001 lines 306-351): without
a selected location it errors; otherwise the days-from-now horizon is
validated (past dates and more than 7 days ahead rejected) before
`fetchWeatherData` posts the request body. -/
def WeatherApp.predictWeather (currentCoords : Option Coords) (dateStr : String)
    (selectedMs nowMs : ℤ) : PredictOutcome :=
  match currentCoords with
  | none => PredictOutcome.error
      "Please select a location first by clicking on the map or entering coordinates."
  | some c =>
    if daysFromNow selectedMs nowMs < 0 then
      PredictOutcome.error "Cannot predict weather for past dates"
    else if daysFromNow selectedMs nowMs > 7 then
      PredictOutcome.error "Cannot predict weather more than 7 days ahead"
    else
      PredictOutcome.fetch (WeatherApp.requestBody dateStr c.lat c.lng)

/-- The location `WeatherOracle` keeps (`this.selectedLocation`,
src/script.js): a display name plus coordinates. -/
structure SelectedLocation where
  name : String
  latitude : ℚ
  longitude : ℚ
deriving DecidableEq

/-- The JSON body `WeatherOracle.predictEnvironment` POSTs to `/api/predict`
(src/script.js lines 145-160): the coordinates are nested under a `location`
key together with the location's display name. -/
def WeatherOracle.requestBody (date name : String) (lat lng : ℚ) : Json :=
  Json.obj [("date", Json.str date),
            ("location", Json.obj [("name", Json.str name),
                                   ("latitude", Json.num lat),
                                   ("longitude", Json.num lng)])]

/-- Outcome of `WeatherOracle.predictEnvironment`: an input error shown to
the user with no request sent, or a fetch with the given JSON body. -/
inductive OracleOutcome where
  | inputError (msg : String)
  | fetch (body : Json)

/-- `WeatherOracle.predictEnvironment` (src/script.js lines 119-160): a
missing date or a missing selected location is rejected before the fetch;
any nonempty date string with a selected location proceeds to the fetch (the
frontend performs no date-range validation). -/
def WeatherOracle.predictEnvironment (date : String)
    (selectedLocation : Option SelectedLocation) : OracleOutcome :=
  if date = "" then OracleOutcome.inputError "Please select a date"
  else
    match selectedLocation with
    | none => OracleOutcome.inputError
        "Please select a location using one of the methods above"
    | some loc => OracleOutcome.fetch
        (WeatherOracle.requestBody date loc.name loc.latitude loc.longitude)

/-- Whether the character list `s` starts with `pre`. -/
def startsWithChars : List Char → List Char → Bool
  | _, [] => true
  | [], _ :: _ => false
  | c :: cs, d :: ds => c == d && startsWithChars cs ds

/-- Whether `sub` occurs as a contiguous substring of `s` (the semantics of
JavaScript `String.prototype.includes` on these ASCII keywords). -/
def containsSubstring : List Char → List Char → Bool
  | [], sub => sub.isEmpty
  | c :: rest, sub => startsWithChars (c :: rest) sub || containsSubstring rest sub

/-- Modelled from the spec: the date-only variant accepts only dates within
the training year (2023); this check lives in the backend (`app.py`), which
is not among the repository's staged source files.  A date string is in
range when it names a day of 2023, i.e. starts with "2023-". -/
def dateInTrainingYear (date : String) : Bool :=
  startsWithChars date.data "2023-".data

/-- `WeatherApp.isValidCoordinate` (src/unnamed/part_001 lines 126-128):
`lat >= -90 && lat <= 90 && lng >= -180 && lng <= 180`. -/
def WeatherApp.isValidCoordinate (lat lng : ℚ) : Bool :=
  decide (lat ≥ -90) && decide (lat ≤ 90) && decide (lng ≥ -180) && decide (lng ≤ 180)

/-- `WeatherApp.updateMapFromInputs` (src/unnamed/part_001 lines 115-124):
the map and marker are moved to the typed coordinates only when
`isValidCoordinate` accepts them; the result is the accepted pair. -/
def WeatherApp.updateMapFromInputs (lat lng : ℚ) : Option (ℚ × ℚ) :=
  if WeatherApp.isValidCoordinate lat lng then some (lat, lng) else none

/-- The coordinate branch of `WeatherApp.handleSearch` (src/unnamed/part_001
lines 223-233): a query parsed as a coordinate pair moves the map only when
`isValidCoordinate` accepts it. -/
def WeatherApp.handleSearchCoordinates (lat lng : ℚ) : Option (ℚ × ℚ) :=
  if WeatherApp.isValidCoordinate lat lng then some (lat, lng) else none

/-- `WeatherApp.convertCoordinateFormat` (src/unnamed/part_001 lines
177-201): whether the typed pair is accepted (otherwise "Invalid coordinate
values." is shown). -/
def WeatherApp.convertCoordinateFormatAccepts (lat lng : ℚ) : Bool :=
  WeatherApp.isValidCoordinate lat lng

/-- Case-insensitive keyword occurrence, as the category functions use it:
the variable name is lowercased and searched for the (lowercase) keyword. -/
def keywordMatch (name kw : String) : Bool :=
  containsSubstring (name.data.map Char.toLower) kw.data

/-- `WeatherOracle.getVariableCategory` (src/script.js lines 321-328). -/
def WeatherOracle.getVariableCategory (name : String) : String :=
  let lowerName := name.data.map Char.toLower
  if containsSubstring lowerName "temperature".data then "temperature"
  else if containsSubstring lowerName "moisture".data ||
          containsSubstring lowerName "humidity".data then "moisture"
  else if containsSubstring lowerName "radiation".data ||
          containsSubstring lowerName "flux".data then "radiation"
  else if containsSubstring lowerName "precipitation".data ||
          containsSubstring lowerName "rain".data ||
          containsSubstring lowerName "snow".data then "precipitation"
  else "other"

/-- `EnvironmentalDashboard.getVariableCategory` (src/script.js lines
1012-1019): identical code to the `WeatherOracle` variant. -/
def EnvironmentalDashboard.getVariableCategory (name : String) : String :=
  let lowerName := name.data.map Char.toLower
  if containsSubstring lowerName "temperature".data then "temperature"
  else if containsSubstring lowerName "moisture".data ||
          containsSubstring lowerName "humidity".data then "moisture"
  else if containsSubstring lowerName "radiation".data ||
          containsSubstring lowerName "flux".data then "radiation"
  else if containsSubstring lowerName "precipitation".data ||
          containsSubstring lowerName "rain".data ||
          containsSubstring lowerName "snow".data then "precipitation"
  else "other"

/-- A concrete selected location (New York City's sample coordinates from
`onCityChange`, src/script.js line 644), used for concrete instances. -/
def exampleLocation : SelectedLocation :=
  { name := "New York City", latitude := 40, longitude := -74 }

/-- The `summary` object of the backend response, as `displayWeatherSummary`
reads it. -/
structure WeatherSummary where
  temperature : ℚ
  feels_like : ℚ
  rain_probability : ℚ
  snow_probability : ℚ
  storm_probability : ℚ
  sunshine_index : ℚ
  humidity_index : ℚ
  wind_speed : ℚ
deriving DecidableEq

/-- One rendered weather-summary card: label, value and unit. -/
structure WeatherItem where
  key : String
  value : ℚ
  unit : String
deriving DecidableEq

/-- `WeatherOracle.displayWeatherSummary` (src/script.js lines 197-222): the
fixed `weatherItems` list rendered for a summary, in source order. -/
def WeatherOracle.displayWeatherSummary (summary : WeatherSummary) : List WeatherItem :=
  [{ key := "🌡️ Average Temperature (°C)", value := summary.temperature, unit := "°C" },
   { key := "🥵 Feels Like Temperature (°C)", value := summary.feels_like, unit := "°C" },
   { key := "☔ Probability of Rain (%)", value := summary.rain_probability, unit := "%" },
   { key := "❄️ Probability of Snow (%)", value := summary.snow_probability, unit := "%" },
   { key := "⚡ Probability of Storm (%)", value := summary.storm_probability, unit := "%" },
   { key := "🌤️ Sunshine Index (%)", value := summary.sunshine_index, unit := "%" },
   { key := "💧 Humidity Index (%)", value := summary.humidity_index, unit := "%" },
   { key := "💨 Wind Speed (m/s)", value := summary.wind_speed, unit := "m/s" }]

/-- `EnvironmentalDashboard.displayWeatherSummary` (src/script.js lines
888-913): identical code to the `WeatherOracle` variant. -/
def EnvironmentalDashboard.displayWeatherSummary (summary : WeatherSummary) : List WeatherItem :=
  [{ key := "🌡️ Average Temperature (°C)", value := summary.temperature, unit := "°C" },
   { key := "🥵 Feels Like Temperature (°C)", value := summary.feels_like, unit := "°C" },
   { key := "☔ Probability of Rain (%)", value := summary.rain_probability, unit := "%" },
   { key := "❄️ Probability of Snow (%)", value := summary.snow_probability, unit := "%" },
   { key := "⚡ Probability of Storm (%)", value := summary.storm_probability, unit := "%" },
   { key := "🌤️ Sunshine Index (%)", value := summary.sunshine_index, unit := "%" },
   { key := "💧 Humidity Index (%)", value := summary.humidity_index, unit := "%" },
   { key := "💨 Wind Speed (m/s)", value := summary.wind_speed, unit := "m/s" }]

/-- What the confidence cell of one variable row shows: the literal "N/A"
or a percentage with one decimal place (carried as tenths of a percent). -/
inductive ConfidenceCell where
  | na
  | percent (tenths : ℤ)
deriving DecidableEq

/-- JavaScript `x.toFixed(1)` on a non-negative value, as tenths: round to
the nearest tenth, ties towards the larger value. -/
def jsToFixed1 (q : ℚ) : ℤ := Rat.floor (q * 10 + 1 / 2)

/-- The confidence cell of `WeatherOracle.displayVariablesTable`
(src/script.js line 248): `variable.confidence ? (confidence * 100).toFixed(1) + percent : 'N/A'`
— an absent/null confidence (`none`) and the falsy value `0` both render as
"N/A". -/
def WeatherOracle.variableConfidenceCell (confidence : Option ℚ) : ConfidenceCell :=
  match confidence with
  | none => ConfidenceCell.na
  | some c => if c = 0 then ConfidenceCell.na else ConfidenceCell.percent (jsToFixed1 (c * 100))

/-- The confidence cell of `EnvironmentalDashboard.displayVariablesTable`
(src/script.js line 939): identical code to the `WeatherOracle` variant. -/
def EnvironmentalDashboard.variableConfidenceCell (confidence : Option ℚ) : ConfidenceCell :=
  match confidence with
  | none => ConfidenceCell.na
  | some c => if c = 0 then ConfidenceCell.na else ConfidenceCell.percent (jsToFixed1 (c * 100))

/-- The four probabilities returned by
`calculateWeatherProbabilitiesFromModel`, after `Math.round`. -/
structure WeatherProbs where
  sunny : ℤ
  rainy : ℤ
  snowy : ℤ
  storm : ℤ
deriving DecidableEq

/-- The pre-rounding sunny probability of
`WeatherApp.calculateWeatherProbabilitiesFromModel` (src/unnamed/part_001
lines 467-475): `Math.max(0, 100 - (rainProb + snowProb + stormProb))`,
with each missing probability treated as 0. -/
def WeatherApp.sunnyProbFromModel (precipprob snowProb stormProb : Option ℚ) : ℚ :=
  max 0 (100 - (precipprob.getD 0 + snowProb.getD 0 + stormProb.getD 0))

/-- `WeatherApp.calculateWeatherProbabilitiesFromModel` (src/unnamed/part_001
lines 467-483). -/
def WeatherApp.calculateWeatherProbabilitiesFromModel
    (precipprob snowProb stormProb : Option ℚ) : WeatherProbs :=
  { sunny := jsRound (WeatherApp.sunnyProbFromModel precipprob snowProb stormProb)
    rainy := jsRound (precipprob.getD 0)
    snowy := jsRound (snowProb.getD 0)
    storm := jsRound (stormProb.getD 0) }

/-- `data.temperature` of the model response. -/
structure ModelTemperature where
  air_temperature : ℚ
  feels_like : ℚ

/-- `data.humidity` of the model response. -/
structure ModelHumidity where
  percentage : ℚ

/-- `data.wind` of the model response. -/
structure ModelWind where
  speed : ℚ

/-- `data.precipitation` of the model response. -/
structure ModelPrecipitation where
  rain_rate : ℚ
  rain_probability : ℚ
  snow_probability : ℚ

/-- `data.pressure` of the model response. -/
structure ModelPressure where
  value : ℚ

/-- `data.weather_conditions` of the model response. -/
structure ModelConditions where
  primary : String
  visibility : String
  storm_probability : ℚ

/-- `data.comfort_index` of the model response. -/
structure ModelComfort where
  comfort_level : String

/-- The `data` object of a successful `/predict` response, as
`convertModelDataToWeather` reads it. -/
structure ModelData where
  temperature : ModelTemperature
  humidity : ModelHumidity
  wind : ModelWind
  precipitation : ModelPrecipitation
  pressure : ModelPressure
  weather_conditions : ModelConditions
  comfort_index : ModelComfort

/-- `WeatherApp.getWeatherCondition` (src/unnamed/part_001 lines 409-422). -/
def WeatherApp.getWeatherCondition (primary : String) : String :=
  if primary = "Sun" then "Sunny"
  else if primary = "Rain" then "Rainy"
  else if primary = "Snow" then "Snowy"
  else if primary = "Freezing" then "Freezing"
  else if primary = "Hot" then "Hot"
  else if primary = "Warm" then "Warm"
  else if primary = "Cool" then "Cool"
  else if primary = "Mild" then "Partly Cloudy"
  else "Partly Cloudy"

/-- The weather display record `convertModelDataToWeather` builds
(src/unnamed/part_001 lines 390-407); `temp`, `feelslike` and `humidity`
are `Math.round`ed there. -/
structure WeatherDisplayData where
  temp : ℤ
  feelslike : ℤ
  humidity : ℤ
  conditions : String
  precip : ℚ
  precipprob : ℚ
  windSpeed : ℚ
  windGusts : ℚ
  pressure : ℚ
  visibility : String
  stormProb : ℚ
  snowProb : ℚ
  comfortLevel : String

/-- `WeatherApp.convertModelDataToWeather` (src/unnamed/part_001 lines
390-407); note `windGusts` is the synthetic estimate `wind.speed * 1.3`. -/
def WeatherApp.convertModelDataToWeather (modelData : ModelData) : WeatherDisplayData :=
  { temp := jsRound modelData.temperature.air_temperature
    feelslike := jsRound modelData.temperature.feels_like
    humidity := jsRound modelData.humidity.percentage
    conditions := WeatherApp.getWeatherCondition modelData.weather_conditions.primary
    precip := modelData.precipitation.rain_rate
    precipprob := modelData.precipitation.rain_probability
    windSpeed := modelData.wind.speed
    windGusts := modelData.wind.speed * (13 / 10)
    pressure := modelData.pressure.value
    visibility := modelData.weather_conditions.visibility
    stormProb := modelData.weather_conditions.storm_probability
    snowProb := modelData.precipitation.snow_probability
    comfortLevel := modelData.comfort_index.comfort_level }

/-- A `/predict` response as `fetchWeatherData` observes it: the HTTP `ok`
flag, the body's `success` flag, its `data` payload and its `error`
message. -/
structure ApiResponse where
  ok : Bool
  success : Bool
  data : Option ModelData
  error : Option String

/-- `WeatherApp.fetchWeatherData` (src/unnamed/part_001 lines 353-388): a
non-ok response or an unsuccessful body throws (no mock fallback); only
`success && data` converts the model data for display. -/
def WeatherApp.fetchWeatherData (resp : ApiResponse) : Except String WeatherDisplayData :=
  if resp.ok = false then
    Except.error ((resp.error).getD "Model API error")
  else
    match resp.success, resp.data with
    | true, some d => Except.ok (WeatherApp.convertModelDataToWeather d)
    | _, _ => Except.error ((resp.error).getD "No weather data available from model")

/-- The numbers `WeatherApp.updateWeatherDisplay` (src/unnamed/part_001
lines 425-465) writes into the page for a converted weather record, in
source order: current temperature, feels-like, shade temperature
(feels-like − 2), wind speed, wind gusts, humidity, pressure, tonight's
low, tomorrow's high, and the four probabilities. -/
def WeatherApp.displayedNumbers (d : WeatherDisplayData) : List ℚ :=
  let windSpeed : ℤ := jsRound (jsOr d.windSpeed 0)
  let windGusts : ℤ := jsRound (jsOr d.windGusts ((windSpeed : ℚ) * (13 / 10)))
  let probabilities := WeatherApp.calculateWeatherProbabilitiesFromModel
    (some d.precipprob) (some d.snowProb) (some d.stormProb)
  [((jsRound (d.temp : ℚ) : ℤ) : ℚ),
   ((jsRound (d.feelslike : ℚ) : ℤ) : ℚ),
   ((jsRound ((d.feelslike : ℚ) - 2) : ℤ) : ℚ),
   (windSpeed : ℚ),
   (windGusts : ℚ),
   ((jsRound (jsOr (d.humidity : ℚ) 0) : ℤ) : ℚ),
   ((jsRound (jsOr d.pressure 0) : ℤ) : ℚ),
   ((jsRound ((d.temp : ℚ) - (if 0 < d.temp then (8 : ℚ) else 5)) : ℤ) : ℚ),
   ((jsRound ((d.temp : ℚ) + (if 0 < d.temp then (3 : ℚ) else 2)) : ℤ) : ℚ),
   ((jsRound (probabilities.sunny : ℚ) : ℤ) : ℚ),
   ((jsRound (probabilities.rainy : ℚ) : ℤ) : ℚ),
   ((jsRound (probabilities.snowy : ℚ) : ℤ) : ℚ),
   ((jsRound (probabilities.storm : ℚ) : ℤ) : ℚ)]

/-- Every numeric value of a model response: what "a value returned by the
model invocation" can mean for a displayed number. -/
def WeatherApp.modelNumbers (m : ModelData) : List ℚ :=
  [m.temperature.air_temperature, m.temperature.feels_like,
   m.humidity.percentage, m.wind.speed, m.precipitation.rain_rate,
   m.precipitation.rain_probability, m.precipitation.snow_probability,
   m.pressure.value, m.weather_conditions.storm_probability]

/-- A concrete model response payload used for concrete instances. -/
def exampleModelData : ModelData :=
  { temperature := { air_temperature := 20, feels_like := 18 }
    humidity := { percentage := 50 }
    wind := { speed := 10 }
    precipitation := { rain_rate := 1, rain_probability := 40, snow_probability := 5 }
    pressure := { value := 1000 }
    weather_conditions := { primary := "Sun", visibility := "Good", storm_probability := 2 }
    comfort_index := { comfort_level := "Pleasant" } }

end WeatherFrontend

namespace WeatherFrontend

/-- `Rat.floor` agrees with the mathematical floor. -/
theorem ratFloor_eq_intFloor (q : ℚ) : Rat.floor q = ⌊q⌋ := by
  rw [Rat.floor_def', Rat.floor_def]

/-- `jsRound` through the mathematical floor, for evaluation by `norm_num`. -/
theorem jsRound_eq_floor (q : ℚ) : jsRound q = ⌊q + 1 / 2⌋ := by
  rw [jsRound, ratFloor_eq_intFloor]

/-- C1: for every confidence list received from the backend, the confidence
display contains at most 5 entries, and those entries are the first five of
the input list reordered by confidence descending; this holds in both
dashboard variants' `displayConfidenceIntervals`. -/
theorem c1_confidence_display_top5 (confidence : List ConfidenceEntry) :
    EnvironmentalDashboard.displayConfidenceIntervals confidence =
      WeatherOracle.displayConfidenceIntervals confidence ∧
    (WeatherOracle.displayConfidenceIntervals confidence).length ≤ 5 ∧
    ∃ sorted : List ConfidenceEntry,
      sorted.Perm confidence ∧
      sorted.Pairwise (fun a b => b.confidence ≤ a.confidence) ∧
      WeatherOracle.displayConfidenceIntervals confidence = sorted.take 5 := by
  refine ⟨rfl, ?_, ?_⟩
  · unfold WeatherOracle.displayConfidenceIntervals
    split
    · simp
    · rw [List.length_take]; exact inf_le_left
  · unfold WeatherOracle.displayConfidenceIntervals
    split
    · next h =>
      refine ⟨[], ?_, List.Pairwise.nil, rfl⟩
      rw [List.isEmpty_iff.mp h]
    · refine ⟨confidence.mergeSort (fun a b => decide (b.confidence ≤ a.confidence)),
        List.mergeSort_perm confidence _, ?_, rfl⟩
      have hs := @List.sorted_mergeSort ConfidenceEntry
        (fun a b : ConfidenceEntry => decide (b.confidence ≤ a.confidence))
        (fun a b c hab hbc => by
          simp only [decide_eq_true_eq] at *
          exact le_trans hbc hab)
        (fun a b => by
          simp only [Bool.or_eq_true, decide_eq_true_eq]
          exact le_total b.confidence a.confidence)
        confidence
      exact hs.imp (fun h => by simpa using h)

/-- C2: with a location selected, the map app's `predictWeather` errors out
before contacting the backend exactly when the computed days-from-now is
negative or greater than 7; for days-from-now in 0..7 the fetch proceeds
with the request body. -/
theorem c2_forecast_horizon (c : Coords) (dateStr : String) (selectedMs nowMs : ℤ) :
    ((∃ msg, WeatherApp.predictWeather (some c) dateStr selectedMs nowMs =
        PredictOutcome.error msg) ↔
      (daysFromNow selectedMs nowMs < 0 ∨ 7 < daysFromNow selectedMs nowMs)) ∧
    (0 ≤ daysFromNow selectedMs nowMs ∧ daysFromNow selectedMs nowMs ≤ 7 →
      WeatherApp.predictWeather (some c) dateStr selectedMs nowMs =
        PredictOutcome.fetch (WeatherApp.requestBody dateStr c.lat c.lng)) := by
  constructor
  · constructor
    · rintro ⟨msg, hmsg⟩
      by_cases h0 : daysFromNow selectedMs nowMs < 0
      · exact Or.inl h0
      by_cases h7 : 7 < daysFromNow selectedMs nowMs
      · exact Or.inr h7
      · simp [WeatherApp.predictWeather, h0, h7] at hmsg
    · rintro (h | h)
      · exact ⟨"Cannot predict weather for past dates",
          by simp [WeatherApp.predictWeather, h]⟩
      · refine ⟨"Cannot predict weather more than 7 days ahead", ?_⟩
        have h0 : ¬ daysFromNow selectedMs nowMs < 0 := by omega
        simp [WeatherApp.predictWeather, h0, h]
  · rintro ⟨h0, h7⟩
    have h0' : ¬ daysFromNow selectedMs nowMs < 0 := by omega
    have h7' : ¬ 7 < daysFromNow selectedMs nowMs := by omega
    simp [WeatherApp.predictWeather, h0', h7']

/-- C6: the coordinate validity predicate accepts a pair exactly when the
latitude lies in [-90, 90] and the longitude in [-180, 180], and each entry
point (map inputs, search, format conversion) accepts a pair exactly when
the predicate does. -/
theorem c6_coordinate_bounds (lat lng : ℚ) :
    (WeatherApp.isValidCoordinate lat lng = true ↔
      (-90 ≤ lat ∧ lat ≤ 90 ∧ -180 ≤ lng ∧ lng ≤ 180)) ∧
    (WeatherApp.updateMapFromInputs lat lng).isSome =
      WeatherApp.isValidCoordinate lat lng ∧
    (WeatherApp.handleSearchCoordinates lat lng).isSome =
      WeatherApp.isValidCoordinate lat lng ∧
    WeatherApp.convertCoordinateFormatAccepts lat lng =
      WeatherApp.isValidCoordinate lat lng := by
  refine ⟨?_, ?_, ?_, rfl⟩
  · simp [WeatherApp.isValidCoordinate, ge_iff_le, and_assoc]
  · unfold WeatherApp.updateMapFromInputs
    split <;> simp_all
  · unfold WeatherApp.handleSearchCoordinates
    split <;> simp_all

/-- C4 counterexample: the map app's request body nests nothing under a
`location` key — the coordinates are top-level `latitude`/`longitude`
fields, so the claimed shape does not hold in both frontend variants. -/
theorem c4_nested_location_counterexample :
    lookupField (WeatherApp.requestBody "2025-10-18T00:00" 40 (-74)) "location" = none ∧
    lookupField (WeatherApp.requestBody "2025-10-18T00:00" 40 (-74)) "latitude" =
      some (Json.num 40) ∧
    lookupField (WeatherApp.requestBody "2025-10-18T00:00" 40 (-74)) "longitude" =
      some (Json.num (-74)) := by
  refine ⟨rfl, rfl, rfl⟩

/-- C4 amended: `WeatherOracle` nests the coordinates (with the location's
display name) under a `location` key, while `WeatherApp` sends `latitude`
and `longitude` as top-level fields next to `date` and has no `location`
key. -/
theorem c4_request_body_shapes (date name : String) (lat lng : ℚ) :
    lookupField (WeatherOracle.requestBody date name lat lng) "date" =
      some (Json.str date) ∧
    lookupField (WeatherOracle.requestBody date name lat lng) "location" =
      some (Json.obj [("name", Json.str name), ("latitude", Json.num lat),
                      ("longitude", Json.num lng)]) ∧
    lookupField (WeatherApp.requestBody date lat lng) "date" = some (Json.str date) ∧
    lookupField (WeatherApp.requestBody date lat lng) "latitude" = some (Json.num lat) ∧
    lookupField (WeatherApp.requestBody date lat lng) "longitude" = some (Json.num lng) ∧
    lookupField (WeatherApp.requestBody date lat lng) "location" = none := by
  refine ⟨rfl, rfl, rfl, rfl, rfl, rfl⟩

/-- C5 counterexample: the `WeatherOracle` frontend performs no date-range
validation — a date outside the training year (2023) with a selected
location still proceeds to the fetch, so no input error is reported before
the request is sent. -/
theorem c5_out_of_range_counterexample :
    dateInTrainingYear "2024-06-01" = false ∧
    WeatherOracle.predictEnvironment "2024-06-01" (some exampleLocation) =
      OracleOutcome.fetch
        (WeatherOracle.requestBody "2024-06-01" "New York City" 40 (-74)) := by
  exact ⟨by decide, rfl⟩

/-- C5 amended: each variant runs exactly the validation checks it
implements before the fetch — `WeatherOracle` rejects a missing date and a
missing location (but no out-of-range date, which is left to the backend);
`WeatherApp` rejects a missing location and an out-of-horizon date. -/
theorem c5_validation_before_fetch (date dateStr : String) (loc : SelectedLocation)
    (l : Option SelectedLocation) (c : Coords) (selectedMs nowMs : ℤ) :
    WeatherOracle.predictEnvironment "" l =
      OracleOutcome.inputError "Please select a date" ∧
    (date ≠ "" → WeatherOracle.predictEnvironment date none =
      OracleOutcome.inputError
        "Please select a location using one of the methods above") ∧
    (date ≠ "" → WeatherOracle.predictEnvironment date (some loc) =
      OracleOutcome.fetch
        (WeatherOracle.requestBody date loc.name loc.latitude loc.longitude)) ∧
    WeatherApp.predictWeather none dateStr selectedMs nowMs =
      PredictOutcome.error
        "Please select a location first by clicking on the map or entering coordinates." ∧
    ((daysFromNow selectedMs nowMs < 0 ∨ 7 < daysFromNow selectedMs nowMs) →
      ∃ msg, WeatherApp.predictWeather (some c) dateStr selectedMs nowMs =
        PredictOutcome.error msg) := by
  refine ⟨by simp [WeatherOracle.predictEnvironment], ?_, ?_, rfl, ?_⟩
  · intro h
    simp [WeatherOracle.predictEnvironment, h]
  · intro h
    simp [WeatherOracle.predictEnvironment, h]
  · rintro (h | h)
    · exact ⟨"Cannot predict weather for past dates",
        by simp [WeatherApp.predictWeather, h]⟩
    · refine ⟨"Cannot predict weather more than 7 days ahead", ?_⟩
      have h0 : ¬ daysFromNow selectedMs nowMs < 0 := by omega
      simp [WeatherApp.predictWeather, h0, h]

/-- C7: both variants assign each variable name exactly one of the five
categories, by case-insensitive keyword match in the fixed priority order
temperature, then moisture/humidity, then radiation/flux, then
precipitation/rain/snow, else other. -/
theorem c7_variable_category (name : String) :
    EnvironmentalDashboard.getVariableCategory name =
      WeatherOracle.getVariableCategory name ∧
    WeatherOracle.getVariableCategory name ∈
      ["temperature", "moisture", "radiation", "precipitation", "other"] ∧
    (WeatherOracle.getVariableCategory name = "temperature" ↔
      keywordMatch name "temperature" = true) ∧
    (WeatherOracle.getVariableCategory name = "moisture" ↔
      (keywordMatch name "temperature" = false ∧
       (keywordMatch name "moisture" = true ∨ keywordMatch name "humidity" = true))) ∧
    (WeatherOracle.getVariableCategory name = "radiation" ↔
      (keywordMatch name "temperature" = false ∧
       keywordMatch name "moisture" = false ∧ keywordMatch name "humidity" = false ∧
       (keywordMatch name "radiation" = true ∨ keywordMatch name "flux" = true))) ∧
    (WeatherOracle.getVariableCategory name = "precipitation" ↔
      (keywordMatch name "temperature" = false ∧
       keywordMatch name "moisture" = false ∧ keywordMatch name "humidity" = false ∧
       keywordMatch name "radiation" = false ∧ keywordMatch name "flux" = false ∧
       (keywordMatch name "precipitation" = true ∨ keywordMatch name "rain" = true ∨
        keywordMatch name "snow" = true))) ∧
    (WeatherOracle.getVariableCategory name = "other" ↔
      (keywordMatch name "temperature" = false ∧
       keywordMatch name "moisture" = false ∧ keywordMatch name "humidity" = false ∧
       keywordMatch name "radiation" = false ∧ keywordMatch name "flux" = false ∧
       keywordMatch name "precipitation" = false ∧ keywordMatch name "rain" = false ∧
       keywordMatch name "snow" = false)) := by
  unfold WeatherOracle.getVariableCategory EnvironmentalDashboard.getVariableCategory
    keywordMatch
  dsimp only
  split_ifs with h1 h2 h3 h4 <;>
    simp_all [Bool.or_eq_true, not_or] <;> try tauto
  all_goals (repeat' apply And.intro)
  all_goals intros
  all_goals (try simp_all)
  all_goals tauto

/-- C8: the weather-summary display renders exactly eight fields, in the
fixed source order temperature, feels_like, rain_probability,
snow_probability, storm_probability, sunshine_index, humidity_index,
wind_speed, in both dashboard variants. -/
theorem c8_weather_summary_fields (summary : WeatherSummary) :
    EnvironmentalDashboard.displayWeatherSummary summary =
      WeatherOracle.displayWeatherSummary summary ∧
    (WeatherOracle.displayWeatherSummary summary).length = 8 ∧
    (WeatherOracle.displayWeatherSummary summary).map WeatherItem.value =
      [summary.temperature, summary.feels_like, summary.rain_probability,
       summary.snow_probability, summary.storm_probability,
       summary.sunshine_index, summary.humidity_index, summary.wind_speed] ∧
    (WeatherOracle.displayWeatherSummary summary).map WeatherItem.key =
      ["🌡️ Average Temperature (°C)", "🥵 Feels Like Temperature (°C)",
       "☔ Probability of Rain (%)", "❄️ Probability of Snow (%)",
       "⚡ Probability of Storm (%)", "🌤️ Sunshine Index (%)",
       "💧 Humidity Index (%)", "💨 Wind Speed (m/s)"] := by
  exact ⟨rfl, rfl, rfl, rfl⟩

/-- C9: a variable whose confidence is absent/null or exactly 0 renders as
"N/A"; only a nonzero confidence renders as a one-decimal percentage; a
genuine confidence of 0 is indistinguishable from a missing one.  Both
variants' `displayVariablesTable` cells agree. -/
theorem c9_confidence_na_rendering (c : ℚ) :
    WeatherOracle.variableConfidenceCell none = ConfidenceCell.na ∧
    WeatherOracle.variableConfidenceCell (some 0) = ConfidenceCell.na ∧
    (c ≠ 0 → WeatherOracle.variableConfidenceCell (some c) =
      ConfidenceCell.percent (jsToFixed1 (c * 100))) ∧
    WeatherOracle.variableConfidenceCell (some 0) =
      WeatherOracle.variableConfidenceCell none ∧
    EnvironmentalDashboard.variableConfidenceCell (some c) =
      WeatherOracle.variableConfidenceCell (some c) ∧
    EnvironmentalDashboard.variableConfidenceCell none =
      WeatherOracle.variableConfidenceCell none := by
  refine ⟨rfl, by simp [WeatherOracle.variableConfidenceCell], ?_,
    by simp [WeatherOracle.variableConfidenceCell], rfl, rfl⟩
  intro h
  simp [WeatherOracle.variableConfidenceCell, h]

/-- C10: the pre-rounding sunny probability equals
`max 0 (100 - (rain + snow + storm))` with missing values as 0, is never
negative, and whenever the three probabilities sum to at most 100 the four
pre-rounding probabilities sum to exactly 100; the returned record rounds
it. -/
theorem c10_sunny_probability (precipprob snowProb stormProb : Option ℚ) :
    WeatherApp.sunnyProbFromModel precipprob snowProb stormProb =
      max 0 (100 - (precipprob.getD 0 + snowProb.getD 0 + stormProb.getD 0)) ∧
    0 ≤ WeatherApp.sunnyProbFromModel precipprob snowProb stormProb ∧
    (precipprob.getD 0 + snowProb.getD 0 + stormProb.getD 0 ≤ 100 →
      WeatherApp.sunnyProbFromModel precipprob snowProb stormProb +
        (precipprob.getD 0 + snowProb.getD 0 + stormProb.getD 0) = 100) ∧
    (WeatherApp.calculateWeatherProbabilitiesFromModel precipprob snowProb stormProb).sunny =
      jsRound (WeatherApp.sunnyProbFromModel precipprob snowProb stormProb) := by
  refine ⟨rfl, le_max_left _ _, ?_, rfl⟩
  intro h
  rw [WeatherApp.sunnyProbFromModel,
    max_eq_right (by linarith :
      (0 : ℚ) ≤ 100 - (precipprob.getD 0 + snowProb.getD 0 + stormProb.getD 0))]
  ring

/-- C3 counterexample: at a concrete model response the displayed wind-gusts
number (13, the synthetic estimate `wind.speed * 1.3` for a returned wind
speed of 10) is displayed but is not a value returned by the model
invocation, so not every displayed number traces to a returned value. -/
theorem c3_displayed_numbers_counterexample :
    (13 : ℚ) ∈ WeatherApp.displayedNumbers
      (WeatherApp.convertModelDataToWeather exampleModelData) ∧
    (13 : ℚ) ∉ WeatherApp.modelNumbers exampleModelData := by
  have hd : WeatherApp.displayedNumbers
      (WeatherApp.convertModelDataToWeather exampleModelData) =
      [20, 18, 16, 10, 13, 50, 1000, 12, 23, 53, 40, 5, 2] := by
    norm_num [WeatherApp.displayedNumbers, WeatherApp.convertModelDataToWeather,
      WeatherApp.calculateWeatherProbabilitiesFromModel,
      WeatherApp.sunnyProbFromModel, WeatherApp.getWeatherCondition,
      exampleModelData, jsRound_eq_floor, jsOr]
  rw [hd]
  refine ⟨by simp, ?_⟩
  norm_num [WeatherApp.modelNumbers, exampleModelData]

/-- C3 amended: the fetch pipeline never fabricates weather data — it
returns display data exactly when the HTTP response is ok, the body reports
success and carries model data, in which case the display record is the
deterministic conversion of that model data; every failure surfaces an
error.  (Some displayed numbers are synthetically derived from returned
values — e.g. wind gusts = wind speed × 1.3 — rather than equal to them.) -/
theorem c3_no_fabricated_data (resp : ApiResponse) :
    ((∃ w, WeatherApp.fetchWeatherData resp = Except.ok w) ↔
      (resp.ok = true ∧ resp.success = true ∧ resp.data.isSome = true)) ∧
    (∀ m w, resp.data = some m →
      WeatherApp.fetchWeatherData resp = Except.ok w →
      w = WeatherApp.convertModelDataToWeather m) ∧
    ((resp.ok = false ∨ resp.success = false ∨ resp.data = none) →
      ∃ msg, WeatherApp.fetchWeatherData resp = Except.error msg) := by
  obtain ⟨ok, success, data, err⟩ := resp
  cases ok <;> cases success <;> cases data <;>
    simp [WeatherApp.fetchWeatherData]

end WeatherFrontend
